import Mathlib

/-!
Shallow embedding of the go-akamai-ccu client library.

The repository provides two independent clients for the Akamai Cache Control
Utility API: a v2 client (basic-auth, queue-based endpoints) and a v3 client
(signed requests, path-based purge endpoint).  Pure computations (error
formatting, status classification, path construction, defaulting, ETA) are
translated directly; the HTTP exchange is modelled by passing the transport's
reply as an explicit input: a reply is either a network-level failure carrying
a message, or an HTTP reply with a transport status code and a body that
either JSON-decodes to the target value or fails with a message.  Go's
`time.Time` is modelled as an integer number of seconds, `0` being the zero
time; `time.Now()` becomes an explicit `now` argument.  Go's `(value, error)`
return convention is modelled by a pair of `Option`s.
-/

namespace CCU

/-- An HTTP reply from the transport: the wire status code together with the
result of JSON-decoding the body into the target type `α` (`Except.error`
models a body that is not valid JSON for the expected shape). -/
structure HTTPReply (α : Type) where
  statusCode : Int
  body : Except String α

/-- Result of one transport exchange: `Except.error` is a network-level
failure (connection, timeout, TLS), `Except.ok` an HTTP reply. -/
abbrev HTTPResult (α : Type) := Except String (HTTPReply α)

/-- `apiURL` constant of the v2 package. -/
def apiURL : String := "https://api.ccu.akamai.com"

namespace V2

/-- v2 `Response`: base object embedded in every v2 API response. -/
structure Response where
  supportID : String
  statusCode : Int
  title : String
  detail : String
  describedBy : String
  rawResponse : String
deriving DecidableEq

/-- v2 `Response.Error()`: the error-message formatting of a Response. -/
def Response.Error (e : Response) : String :=
  if e.title = "" then "unknown"
  else if e.detail = "" then e.title
  else e.title ++ ": " ++ e.detail

/-- v2 `Response.assertError()`: returns the Response itself as the error if
its embedded HTTP status code is not in the 200 range, `none` otherwise. -/
def Response.assertError (r : Response) : Option Response :=
  if r.statusCode < 200 ∨ r.statusCode > 299 then some r else none

/-- The error classes a v2 operation can surface: transport failure,
the HTTP-401 short-circuit (`fmt.Errorf("unauthorized")`), a JSON decode
failure, or a decoded `Response` whose embedded status is out of range. -/
inductive Err where
  | transport (msg : String)
  | unauthorized
  | decode (msg : String)
  | api (r : Response)
deriving DecidableEq

/-- v2 `Client.do` (for a non-nil decode target, as used by every caller):
propagates a transport failure, short-circuits an HTTP 401 before any decode
is attempted, then decodes the body.  The first component models the returned
`*http.Response` (`none` = the Go function returned `nil` for it); the second
the decoded value or the error. -/
def doRequest {α : Type} (reply : HTTPResult α) : Option Int × Except Err α :=
  match reply with
  | .error msg => (none, .error (.transport msg))
  | .ok resp =>
    if resp.statusCode = 401 then (none, .error .unauthorized)
    else
      match resp.body with
      | .error msg => (none, .error (.decode msg))
      | .ok a => (some resp.statusCode, .ok a)

/-- v2 `QueueLengthResponse`. -/
structure QueueLengthResponse where
  response : Response
  queueLength : Int
deriving DecidableEq

/-- v2 `Client.GetQueueLength`, from the point where the transport replies:
run `do`, then classify the embedded status.  Returns the Go `(value, error)`
pair. -/
def Client.GetQueueLength (reply : HTTPResult QueueLengthResponse) :
    Option QueueLengthResponse × Option Err :=
  match (doRequest reply).2 with
  | .error e => (none, some e)
  | .ok v =>
    match v.response.assertError with
    | some r => (none, some (.api r))
    | none => (some v, none)

/-- URL used by v2 `Client.GetQueueLength`. -/
def queueLengthURL : String := apiURL ++ "/ccu/v2/queues/default"

/-- v2 `PurgeRequest`.  `queue` has JSON tag `-`; the three classification
fields carry `omitempty`. -/
structure PurgeRequest where
  queue : String
  type : String
  action : String
  domain : String
  objects : List String
deriving DecidableEq

/-- v2 `NewPurgeRequest`: constructor applying the v2 defaults. -/
def NewPurgeRequest (objects : List String) : PurgeRequest :=
  { queue := "", type := "arl", action := "remove", domain := "production",
    objects := objects }

/-- v2 `PurgeResponse`.  `time` models the client-side `Time time.Time`
field (JSON tag `-`), in seconds, `0` the zero time. -/
structure PurgeResponse where
  response : Response
  estimatedSeconds : Int
  purgeID : String
  progressURI : String
  pingAfterSeconds : Int
  time : Int
deriving DecidableEq

/-- v2 `PurgeResponse.ETA()`: zero time if no submission time was stamped,
otherwise submission time plus the estimated seconds. -/
def PurgeResponse.ETA (p : PurgeResponse) : Int :=
  if p.time = 0 then 0 else p.time + p.estimatedSeconds

/-- Everything v2 `Client.Purge` does that is visible to the caller: the URL
it POSTs to, the value it encodes as the body, the state of the
caller-supplied request after the call, and the returned `(value, error)`
pair. -/
structure PurgeOutcome where
  url : String
  sent : PurgeRequest
  reqAfter : PurgeRequest
  resp : Option PurgeResponse
  err : Option Err
deriving DecidableEq

/-- v2 `Client.Purge`: picks the queue (defaulting a blank queue name to
`"default"`), POSTs the request value as-is, runs `do`, classifies the
embedded status, and on success stamps the current time.  `now` models
`time.Now()`. -/
def Client.Purge (req : PurgeRequest) (reply : HTTPResult PurgeResponse)
    (now : Int) : PurgeOutcome :=
  let q := if req.queue = "" then "default" else req.queue
  let url := apiURL ++ "/ccu/v2/queues/" ++ q
  match (doRequest reply).2 with
  | .error e =>
    { url := url, sent := req, reqAfter := req, resp := none, err := some e }
  | .ok v =>
    match v.response.assertError with
    | some r =>
      { url := url, sent := req, reqAfter := req, resp := none,
        err := some (.api r) }
    | none =>
      { url := url, sent := req, reqAfter := req,
        resp := some { v with time := now }, err := none }

/-- v2 `PurgeStatusResponse`. -/
structure PurgeStatusResponse where
  response : Response
  originalEstimatedSeconds : Int
  originalQueueLength : Int
  purgeID : String
  completionTime : String
  submittedBy : String
  purgeStatus : String
  submissionTime : String
deriving DecidableEq

/-- v2 `PurgeStatusResponse.IsDone()`: exact equality with `"Done"`. -/
def PurgeStatusResponse.IsDone (p : PurgeStatusResponse) : Bool :=
  p.purgeStatus = "Done"

/-- URL used by v2 `Client.GetPurgeStatus` for a given purge identifier. -/
def purgeStatusURL (purgeID : String) : String :=
  apiURL ++ "/ccu/v2/purges/" ++ purgeID

/-- v2 `Client.GetPurgeStatus`, from the point where the transport replies. -/
def Client.GetPurgeStatus (reply : HTTPResult PurgeStatusResponse) :
    Option PurgeStatusResponse × Option Err :=
  match (doRequest reply).2 with
  | .error e => (none, some e)
  | .ok v =>
    match v.response.assertError with
    | some r => (none, some (.api r))
    | none => (some v, none)

end V2

namespace V3

/-- v3 `Response`: base object embedded in every v3 API response. -/
structure Response where
  supportID : String
  statusCode : Int
  title : String
  detail : String
  describedBy : String
deriving DecidableEq

/-- v3 `Response.Error()`: identical formatting to the v2 method. -/
def Response.Error (e : Response) : String :=
  if e.title = "" then "unknown"
  else if e.detail = "" then e.title
  else e.title ++ ": " ++ e.detail

/-- v3 `Response.assertError()`. -/
def Response.assertError (r : Response) : Option Response :=
  if r.statusCode < 200 ∨ r.statusCode > 299 then some r else none

/-- The error classes a v3 operation can surface (no 401 special case). -/
inductive Err where
  | transport (msg : String)
  | decode (msg : String)
  | api (r : Response)
deriving DecidableEq

/-- v3 `Client.do` (for a non-nil decode target): propagates a transport
failure, then decodes the body.  Unlike v2, a decode failure returns the
partial HTTP response alongside the error (first component `some`). -/
def doRequest {α : Type} (reply : HTTPResult α) : Option Int × Except Err α :=
  match reply with
  | .error msg => (none, .error (.transport msg))
  | .ok resp =>
    match resp.body with
    | .error msg => (some resp.statusCode, .error (.decode msg))
    | .ok a => (some resp.statusCode, .ok a)

/-- v3 `PurgeRequest`.  The three classification fields carry JSON tag `-`
(never serialized); `hostname` carries `omitempty`. -/
structure PurgeRequest where
  type : String
  action : String
  network : String
  hostname : String
  objects : List String
deriving DecidableEq

/-- v3 `PurgeRequest.Path()`: the API path for the request. -/
def PurgeRequest.Path (p : PurgeRequest) : String :=
  "/ccu/v3/" ++ p.action ++ "/" ++ p.type ++ "/" ++ p.network

/-- The three `if`-statements at the top of v3 `Client.Purge`, which write
the defaults into the unset classification fields of the caller's request
(in source order: action, network, type). -/
def applyDefaults (req : PurgeRequest) : PurgeRequest :=
  let r1 := if req.action = "" then { req with action := "invalidate" } else req
  let r2 := if r1.network = "" then { r1 with network := "production" } else r1
  if r2.type = "" then { r2 with type := "url" } else r2

/-- v3 `PurgeResponse`. -/
structure PurgeResponse where
  response : Response
  estimatedSeconds : Int
  purgeID : String
deriving DecidableEq

/-- Everything v3 `Client.Purge` does that is visible to the caller: the
path it POSTs to, the value it encodes as the body, the state of the
caller-supplied request after the call (the defaults are written through the
pointer), and the returned `(value, error)` pair. -/
structure PurgeOutcome where
  path : String
  sent : PurgeRequest
  reqAfter : PurgeRequest
  resp : Option PurgeResponse
  err : Option Err
deriving DecidableEq

/-- v3 `Client.Purge`: defaults unset classification fields in place, POSTs
to `req.Path()`, runs `do`, classifies the embedded status. -/
def Client.Purge (req : PurgeRequest) (reply : HTTPResult PurgeResponse) :
    PurgeOutcome :=
  let r := applyDefaults req
  match (doRequest reply).2 with
  | .error e =>
    { path := r.Path, sent := r, reqAfter := r, resp := none, err := some e }
  | .ok v =>
    match v.response.assertError with
    | some e =>
      { path := r.Path, sent := r, reqAfter := r, resp := none,
        err := some (.api e) }
    | none =>
      { path := r.Path, sent := r, reqAfter := r, resp := some v, err := none }

end V3

/-! ### Concrete sample values, used to instantiate theorems -/

/-- A v2 base response with the given embedded status code, title and
detail. -/
def V2.mkResponse (c : Int) (t d : String) : V2.Response :=
  { supportID := "", statusCode := c, title := t, detail := d,
    describedBy := "", rawResponse := "" }

/-- A v2 queue-length response with the given embedded status code. -/
def V2.mkQueueLength (c : Int) : V2.QueueLengthResponse :=
  { response := V2.mkResponse c "" "", queueLength := 42 }

/-- A v2 purge response with the given embedded status code and stamped
time. -/
def V2.mkPurgeResponse (c t : Int) : V2.PurgeResponse :=
  { response := V2.mkResponse c "" "", estimatedSeconds := 7, purgeID := "p1",
    progressURI := "", pingAfterSeconds := 0, time := t }

/-- A v2 purge-status response with the given embedded status code and
status string. -/
def V2.mkPurgeStatus (c : Int) (s : String) : V2.PurgeStatusResponse :=
  { response := V2.mkResponse c "" "", originalEstimatedSeconds := 0,
    originalQueueLength := 0, purgeID := "", completionTime := "",
    submittedBy := "", purgeStatus := s, submissionTime := "" }

/-- A v2 purge request with the given classification fields. -/
def V2.mkPurgeRequest (ty ac dm : String) : V2.PurgeRequest :=
  { queue := "", type := ty, action := ac, domain := dm, objects := ["/a"] }

/-- A v3 base response with the given embedded status code, title and
detail. -/
def V3.mkResponse (c : Int) (t d : String) : V3.Response :=
  { supportID := "", statusCode := c, title := t, detail := d,
    describedBy := "" }

/-- A v3 purge response with the given embedded status code. -/
def V3.mkPurgeResponse (c : Int) : V3.PurgeResponse :=
  { response := V3.mkResponse c "" "", estimatedSeconds := 7, purgeID := "p1" }

/-- A v3 purge request with the given classification fields. -/
def V3.mkPurgeRequest (ty ac nw : String) : V3.PurgeRequest :=
  { type := ty, action := ac, network := nw, hostname := "", objects := ["/a"] }

/-! ### Helper lemmas -/

/-- v2 `assertError` is `none` exactly on embedded status codes in the 200
range. -/
theorem V2.assertError_eq_none_v2 (r : V2.Response) :
    r.assertError = none ↔ (200 ≤ r.statusCode ∧ r.statusCode ≤ 299) := by
  unfold V2.Response.assertError
  split <;> rename_i h
  · constructor
    · intro h2; simp at h2
    · intro h2; exfalso; omega
  · constructor
    · intro _; omega
    · intro _; rfl

/-- v2 `assertError` surfaces the response itself on out-of-range codes. -/
theorem V2.assertError_eq_some_v2 (r : V2.Response)
    (h : ¬(200 ≤ r.statusCode ∧ r.statusCode ≤ 299)) :
    r.assertError = some r := by
  unfold V2.Response.assertError
  rw [if_pos]
  omega

/-- v3 `assertError` is `none` exactly on embedded status codes in the 200
range. -/
theorem V3.assertError_eq_none_v3 (r : V3.Response) :
    r.assertError = none ↔ (200 ≤ r.statusCode ∧ r.statusCode ≤ 299) := by
  unfold V3.Response.assertError
  split <;> rename_i h
  · constructor
    · intro h2; simp at h2
    · intro h2; exfalso; omega
  · constructor
    · intro _; omega
    · intro _; rfl

/-- v3 `assertError` surfaces the response itself on out-of-range codes. -/
theorem V3.assertError_eq_some_v3 (r : V3.Response)
    (h : ¬(200 ≤ r.statusCode ∧ r.statusCode ≤ 299)) :
    r.assertError = some r := by
  unfold V3.Response.assertError
  rw [if_pos]
  omega

/-- v2 `Purge` encodes the caller's request value into the body unchanged. -/
theorem V2.Purge_sent (req : V2.PurgeRequest)
    (reply : HTTPResult V2.PurgeResponse) (now : Int) :
    (V2.Client.Purge req reply now).sent = req := by
  rcases hdo : (V2.doRequest reply).2 with e | v
  · simp [V2.Client.Purge, hdo]
  · rcases ha : v.response.assertError with _ | r <;>
      simp [V2.Client.Purge, hdo, ha]

/-- v2 `Purge` never modifies the caller's request. -/
theorem V2.Purge_reqAfter_v2 (req : V2.PurgeRequest)
    (reply : HTTPResult V2.PurgeResponse) (now : Int) :
    (V2.Client.Purge req reply now).reqAfter = req := by
  rcases hdo : (V2.doRequest reply).2 with e | v
  · simp [V2.Client.Purge, hdo]
  · rcases ha : v.response.assertError with _ | r <;>
      simp [V2.Client.Purge, hdo, ha]

/-- v3 `Purge` leaves the caller's request in the defaulted state on every
path. -/
theorem V3.Purge_reqAfter_v3 (req : V3.PurgeRequest)
    (reply : HTTPResult V3.PurgeResponse) :
    (V3.Client.Purge req reply).reqAfter = V3.applyDefaults req := by
  rcases hdo : (V3.doRequest reply).2 with e | v
  · simp [V3.Client.Purge, hdo]
  · rcases ha : v.response.assertError with _ | r <;>
      simp [V3.Client.Purge, hdo, ha]

/-- v3 `Purge` posts to the path of the defaulted request on every path. -/
theorem V3.Purge_path_eq (req : V3.PurgeRequest)
    (reply : HTTPResult V3.PurgeResponse) :
    (V3.Client.Purge req reply).path = (V3.applyDefaults req).Path := by
  rcases hdo : (V3.doRequest reply).2 with e | v
  · simp [V3.Client.Purge, hdo]
  · rcases ha : v.response.assertError with _ | r <;>
      simp [V3.Client.Purge, hdo, ha]

/-- Field-by-field description of the v3 defaulting step. -/
theorem V3.applyDefaults_fields (req : V3.PurgeRequest) :
    (V3.applyDefaults req).action =
      (if req.action = "" then "invalidate" else req.action) ∧
    (V3.applyDefaults req).network =
      (if req.network = "" then "production" else req.network) ∧
    (V3.applyDefaults req).type =
      (if req.type = "" then "url" else req.type) ∧
    (V3.applyDefaults req).hostname = req.hostname ∧
    (V3.applyDefaults req).objects = req.objects := by
  unfold V3.applyDefaults
  by_cases ha : req.action = "" <;> by_cases hn : req.network = "" <;>
    by_cases ht : req.type = "" <;> simp [ha, hn, ht]

/-- v2 `GetQueueLength` returns either a value and no error, or no value and
an error. -/
theorem V2.GetQueueLength_cases (reply : HTTPResult V2.QueueLengthResponse) :
    (∃ v, V2.Client.GetQueueLength reply = (some v, none)) ∨
    (∃ e, V2.Client.GetQueueLength reply = (none, some e)) := by
  rcases hdo : (V2.doRequest reply).2 with e | v
  · exact Or.inr ⟨e, by simp [V2.Client.GetQueueLength, hdo]⟩
  · rcases ha : v.response.assertError with _ | r
    · exact Or.inl ⟨v, by simp [V2.Client.GetQueueLength, hdo, ha]⟩
    · exact Or.inr ⟨.api r, by simp [V2.Client.GetQueueLength, hdo, ha]⟩

/-- v2 `GetPurgeStatus` returns either a value and no error, or no value and
an error. -/
theorem V2.GetPurgeStatus_cases (reply : HTTPResult V2.PurgeStatusResponse) :
    (∃ v, V2.Client.GetPurgeStatus reply = (some v, none)) ∨
    (∃ e, V2.Client.GetPurgeStatus reply = (none, some e)) := by
  rcases hdo : (V2.doRequest reply).2 with e | v
  · exact Or.inr ⟨e, by simp [V2.Client.GetPurgeStatus, hdo]⟩
  · rcases ha : v.response.assertError with _ | r
    · exact Or.inl ⟨v, by simp [V2.Client.GetPurgeStatus, hdo, ha]⟩
    · exact Or.inr ⟨.api r, by simp [V2.Client.GetPurgeStatus, hdo, ha]⟩

/-- v2 `Purge` returns either a response and no error, or no response and an
error. -/
theorem V2.Purge_cases_v2 (req : V2.PurgeRequest)
    (reply : HTTPResult V2.PurgeResponse) (now : Int) :
    ((V2.Client.Purge req reply now).err = none ∧
      ∃ v, (V2.Client.Purge req reply now).resp = some v) ∨
    ((V2.Client.Purge req reply now).resp = none ∧
      ∃ e, (V2.Client.Purge req reply now).err = some e) := by
  rcases hdo : (V2.doRequest reply).2 with e | v
  · exact Or.inr ⟨by simp [V2.Client.Purge, hdo], e,
      by simp [V2.Client.Purge, hdo]⟩
  · rcases ha : v.response.assertError with _ | r
    · exact Or.inl ⟨by simp [V2.Client.Purge, hdo, ha],
        { v with time := now }, by simp [V2.Client.Purge, hdo, ha]⟩
    · exact Or.inr ⟨by simp [V2.Client.Purge, hdo, ha], .api r,
        by simp [V2.Client.Purge, hdo, ha]⟩

/-- v3 `Purge` returns either a response and no error, or no response and an
error. -/
theorem V3.Purge_cases_v3 (req : V3.PurgeRequest)
    (reply : HTTPResult V3.PurgeResponse) :
    ((V3.Client.Purge req reply).err = none ∧
      ∃ v, (V3.Client.Purge req reply).resp = some v) ∨
    ((V3.Client.Purge req reply).resp = none ∧
      ∃ e, (V3.Client.Purge req reply).err = some e) := by
  rcases hdo : (V3.doRequest reply).2 with e | v
  · exact Or.inr ⟨by simp [V3.Client.Purge, hdo], e,
      by simp [V3.Client.Purge, hdo]⟩
  · rcases ha : v.response.assertError with _ | r
    · exact Or.inl ⟨by simp [V3.Client.Purge, hdo, ha], v,
        by simp [V3.Client.Purge, hdo, ha]⟩
    · exact Or.inr ⟨by simp [V3.Client.Purge, hdo, ha], .api r,
        by simp [V3.Client.Purge, hdo, ha]⟩

end CCU

/-! ### Claim theorems -/

open CCU in
/-- Claim C5: for every Response value in both versions, the error string is
"unknown" when the title is empty (regardless of the detail), is exactly the
title when the title is non-empty and the detail is empty, and is
"title: detail" when both are non-empty. -/
theorem c5_response_error_formatting (r : V2.Response) (s : V3.Response) :
    (r.title = "" → r.Error = "unknown") ∧
    (r.title ≠ "" → r.detail = "" → r.Error = r.title) ∧
    (r.title ≠ "" → r.detail ≠ "" → r.Error = r.title ++ ": " ++ r.detail) ∧
    (s.title = "" → s.Error = "unknown") ∧
    (s.title ≠ "" → s.detail = "" → s.Error = s.title) ∧
    (s.title ≠ "" → s.detail ≠ "" → s.Error = s.title ++ ": " ++ s.detail) := by
  unfold CCU.V2.Response.Error CCU.V3.Response.Error
  refine ⟨?_, ?_, ?_, ?_, ?_, ?_⟩ <;> intros <;> simp [*]

open CCU in
/-- Witness for C5 at concrete responses. -/
theorem c5_response_error_formatting_witness :
    (V2.mkResponse 0 "X" "Y").Error = "X: Y" ∧
    (V3.mkResponse 0 "" "Y").Error = "unknown" :=
  ⟨(c5_response_error_formatting (V2.mkResponse 0 "X" "Y")
      (V3.mkResponse 0 "" "Y")).2.2.1 (by decide) (by decide),
   (c5_response_error_formatting (V2.mkResponse 0 "X" "Y")
      (V3.mkResponse 0 "" "Y")).2.2.2.1 (by decide)⟩

open CCU in
/-- Claim C9: for every v2 PurgeStatusResponse, IsDone returns true exactly
when the purge status string equals "Done" case-sensitively; in particular it
is false for "", "Pending" and "done". -/
theorem c9_isdone_exact_match (p : V2.PurgeStatusResponse) :
    (p.IsDone = true ↔ p.purgeStatus = "Done") ∧
    (p.purgeStatus = "" ∨ p.purgeStatus = "Pending" ∨ p.purgeStatus = "done" →
      p.IsDone = false) := by
  constructor
  · simp [CCU.V2.PurgeStatusResponse.IsDone]
  · intro h
    rcases h with h | h | h <;> simp [CCU.V2.PurgeStatusResponse.IsDone, h]

open CCU in
/-- Witness for C9 at a concrete status response. -/
theorem c9_isdone_exact_match_witness :
    (V2.mkPurgeStatus 200 "done").IsDone = false :=
  (c9_isdone_exact_match (V2.mkPurgeStatus 200 "done")).2
    (Or.inr (Or.inr rfl))

open CCU in
/-- Claim C8: for every v2 PurgeResponse, ETA is the zero time when the
recorded submission time is the zero time and is submission time plus
EstimatedSeconds otherwise; v2 Purge stamps the current wall-clock time on
the response of every successful call, and on a failed call no response is
returned at all. -/
theorem c8_eta_and_submission_stamp (p : V2.PurgeResponse)
    (req : V2.PurgeRequest) (reply : CCU.HTTPResult V2.PurgeResponse)
    (now : Int) (v : V2.PurgeResponse) :
    (p.time = 0 → p.ETA = 0) ∧
    (p.time ≠ 0 → p.ETA = p.time + p.estimatedSeconds) ∧
    ((V2.Client.Purge req reply now).resp = some v → v.time = now) ∧
    ((V2.Client.Purge req reply now).err ≠ none →
      (V2.Client.Purge req reply now).resp = none) := by
  refine ⟨?_, ?_, ?_, ?_⟩
  · intro h; simp [CCU.V2.PurgeResponse.ETA, h]
  · intro h; simp [CCU.V2.PurgeResponse.ETA, h]
  · rcases hdo : (V2.doRequest reply).2 with e | w
    · simp [CCU.V2.Client.Purge, hdo]
    · rcases ha : w.response.assertError with _ | r
      · intro h
        simp [CCU.V2.Client.Purge, hdo, ha] at h
        rw [← h]
      · simp [CCU.V2.Client.Purge, hdo, ha]
  · rcases hdo : (V2.doRequest reply).2 with e | w
    · simp [CCU.V2.Client.Purge, hdo]
    · rcases ha : w.response.assertError with _ | r <;>
        simp [CCU.V2.Client.Purge, hdo, ha]

open CCU in
/-- Witness for C8: a successful v2 purge at concrete inputs carries the
submission timestamp, and its ETA is submission time plus the estimate. -/
theorem c8_eta_and_submission_stamp_witness :
    (V2.mkPurgeResponse 200 5).ETA = 12 ∧
    (V2.mkPurgeResponse 200 5).time = 5 := by
  constructor
  · exact (c8_eta_and_submission_stamp (V2.mkPurgeResponse 200 5)
      (V2.mkPurgeRequest "" "" "") (.error "net") 5
      (V2.mkPurgeResponse 200 5)).2.1 (by decide)
  · exact (c8_eta_and_submission_stamp (V2.mkPurgeResponse 200 0)
      (V2.mkPurgeRequest "" "" "")
      (.ok { statusCode := 200, body := .ok (V2.mkPurgeResponse 200 0) }) 5
      (V2.mkPurgeResponse 200 5)).2.2.1 (by rfl)

open CCU in
/-- Claim C4: the v3 Purge operation POSTs to the path built from the three
classification fields as "/ccu/v3/" action "/" type "/" network, defaulting
any unset field (action=invalidate, type=url, network=production) and using
set fields as given; in particular the two concrete instances from the
spec hold. -/
theorem c4_v3_purge_path (req : V3.PurgeRequest)
    (reply : CCU.HTTPResult V3.PurgeResponse) :
    ((V3.Client.Purge req reply).path =
      "/ccu/v3/" ++ (if req.action = "" then "invalidate" else req.action)
        ++ "/" ++ (if req.type = "" then "url" else req.type)
        ++ "/" ++ (if req.network = "" then "production" else req.network)) ∧
    (req.type = "url" → req.action = "invalidate" → req.network = "production" →
      (V3.Client.Purge req reply).path = "/ccu/v3/invalidate/url/production") ∧
    (req.type = "cpcode" → req.action = "" → req.network = "" →
      (V3.Client.Purge req reply).path =
        "/ccu/v3/invalidate/cpcode/production") := by
  obtain ⟨ha, hn, ht, -, -⟩ := V3.applyDefaults_fields req
  have hp : (V3.Client.Purge req reply).path =
      "/ccu/v3/" ++ (if req.action = "" then "invalidate" else req.action)
        ++ "/" ++ (if req.type = "" then "url" else req.type)
        ++ "/" ++ (if req.network = "" then "production" else req.network) := by
    rw [V3.Purge_path_eq]
    unfold CCU.V3.PurgeRequest.Path
    rw [ha, hn, ht]
  refine ⟨hp, ?_, ?_⟩
  · intro h1 h2 h3
    rw [hp, h1, h2, h3]
    rfl
  · intro h1 h2 h3
    rw [hp, h1, h2, h3]
    rfl

open CCU in
/-- Witness for C4 at the spec's concrete requests. -/
theorem c4_v3_purge_path_witness :
    (V3.Client.Purge (V3.mkPurgeRequest "url" "invalidate" "production")
      (.error "net")).path = "/ccu/v3/invalidate/url/production" ∧
    (V3.Client.Purge (V3.mkPurgeRequest "cpcode" "" "")
      (.error "net")).path = "/ccu/v3/invalidate/cpcode/production" :=
  ⟨(c4_v3_purge_path (V3.mkPurgeRequest "url" "invalidate" "production")
      (.error "net")).2.1 rfl rfl rfl,
   (c4_v3_purge_path (V3.mkPurgeRequest "cpcode" "" "")
      (.error "net")).2.2 rfl rfl rfl⟩

open CCU in
/-- Claim C6: for every v2 operation, an HTTP 401 transport reply fails with
the unauthorized error before the body is ever decoded — the body here is
universally quantified, covering malformed bodies — and the unauthorized
error differs from every decode error. -/
theorem c6_v2_unauthorized_short_circuit
    (bq : Except String V2.QueueLengthResponse)
    (bp : Except String V2.PurgeResponse)
    (bs : Except String V2.PurgeStatusResponse)
    (req : V2.PurgeRequest) (now : Int) (msg : String) :
    V2.Client.GetQueueLength (.ok { statusCode := 401, body := bq }) =
      (none, some .unauthorized) ∧
    (V2.Client.Purge req (.ok { statusCode := 401, body := bp }) now).resp =
      none ∧
    (V2.Client.Purge req (.ok { statusCode := 401, body := bp }) now).err =
      some .unauthorized ∧
    V2.Client.GetPurgeStatus (.ok { statusCode := 401, body := bs }) =
      (none, some .unauthorized) ∧
    V2.Err.unauthorized ≠ V2.Err.decode msg := by
  refine ⟨?_, ?_, ?_, ?_, by simp⟩ <;>
    simp [CCU.V2.Client.GetQueueLength, CCU.V2.Client.Purge,
      CCU.V2.Client.GetPurgeStatus, CCU.V2.doRequest]

open CCU in
/-- Claim C7: a reply whose body fails to decode yields a decode error in
both versions, but the v2 decoder returns no HTTP response alongside the
error while the v3 decoder returns the partial HTTP response (its status
code) alongside the error. -/
theorem c7_decode_error_divergence (α β : Type) (sc : Int) (msg : String)
    (h : sc ≠ 401) :
    @V2.doRequest α (.ok { statusCode := sc, body := .error msg }) =
      (none, .error (.decode msg)) ∧
    @V3.doRequest β (.ok { statusCode := sc, body := .error msg }) =
      (some sc, .error (.decode msg)) := by
  constructor
  · simp [CCU.V2.doRequest, h]
  · simp [CCU.V3.doRequest]

open CCU in
/-- Witness for C7 at a concrete non-401 status and message. -/
theorem c7_decode_error_divergence_witness :
    @V2.doRequest V2.PurgeResponse
        (.ok { statusCode := 200, body := .error "bad json" }) =
      (none, .error (.decode "bad json")) ∧
    @V3.doRequest V3.PurgeResponse
        (.ok { statusCode := 200, body := .error "bad json" }) =
      (some 200, .error (.decode "bad json")) :=
  c7_decode_error_divergence V2.PurgeResponse V3.PurgeResponse 200 "bad json"
    (by decide)

open CCU in
/-- Claim C1: for every decoded response in either client version, the
operation succeeds and returns the decoded value exactly when the embedded
Response's status code lies in [200,299]; for every status code outside
that range the decoded Response itself is returned as the error.  The
transport-level status code `sc` is arbitrary apart from the v2 401
short-circuit, and the decoded responses of all four operations are
universally quantified, covering the boundary values 199, 200, 299 and
300. -/
theorem c1_status_code_classification
    (sc now : Int) (h401 : sc ≠ 401)
    (q : V2.QueueLengthResponse) (p : V2.PurgeResponse)
    (s : V2.PurgeStatusResponse) (w : V3.PurgeResponse)
    (req2 : V2.PurgeRequest) (req3 : V3.PurgeRequest) :
    ((200 ≤ q.response.statusCode ∧ q.response.statusCode ≤ 299) →
      V2.Client.GetQueueLength (.ok { statusCode := sc, body := .ok q }) =
        (some q, none)) ∧
    (¬(200 ≤ q.response.statusCode ∧ q.response.statusCode ≤ 299) →
      V2.Client.GetQueueLength (.ok { statusCode := sc, body := .ok q }) =
        (none, some (.api q.response))) ∧
    ((200 ≤ p.response.statusCode ∧ p.response.statusCode ≤ 299) →
      (V2.Client.Purge req2 (.ok { statusCode := sc, body := .ok p })
          now).resp = some { p with time := now } ∧
      (V2.Client.Purge req2 (.ok { statusCode := sc, body := .ok p })
          now).err = none) ∧
    (¬(200 ≤ p.response.statusCode ∧ p.response.statusCode ≤ 299) →
      (V2.Client.Purge req2 (.ok { statusCode := sc, body := .ok p })
          now).resp = none ∧
      (V2.Client.Purge req2 (.ok { statusCode := sc, body := .ok p })
          now).err = some (.api p.response)) ∧
    ((200 ≤ s.response.statusCode ∧ s.response.statusCode ≤ 299) →
      V2.Client.GetPurgeStatus (.ok { statusCode := sc, body := .ok s }) =
        (some s, none)) ∧
    (¬(200 ≤ s.response.statusCode ∧ s.response.statusCode ≤ 299) →
      V2.Client.GetPurgeStatus (.ok { statusCode := sc, body := .ok s }) =
        (none, some (.api s.response))) ∧
    ((200 ≤ w.response.statusCode ∧ w.response.statusCode ≤ 299) →
      (V3.Client.Purge req3
          (.ok { statusCode := sc, body := .ok w })).resp = some w ∧
      (V3.Client.Purge req3
          (.ok { statusCode := sc, body := .ok w })).err = none) ∧
    (¬(200 ≤ w.response.statusCode ∧ w.response.statusCode ≤ 299) →
      (V3.Client.Purge req3
          (.ok { statusCode := sc, body := .ok w })).resp = none ∧
      (V3.Client.Purge req3
          (.ok { statusCode := sc, body := .ok w })).err =
        some (.api w.response)) := by
  refine ⟨?_, ?_, ?_, ?_, ?_, ?_, ?_, ?_⟩
  · intro hin
    have h := (V2.assertError_eq_none_v2 q.response).mpr hin
    simp [CCU.V2.Client.GetQueueLength, CCU.V2.doRequest, h401, h]
  · intro hout
    have h := V2.assertError_eq_some_v2 q.response hout
    simp [CCU.V2.Client.GetQueueLength, CCU.V2.doRequest, h401, h]
  · intro hin
    have h := (V2.assertError_eq_none_v2 p.response).mpr hin
    constructor <;> simp [CCU.V2.Client.Purge, CCU.V2.doRequest, h401, h]
  · intro hout
    have h := V2.assertError_eq_some_v2 p.response hout
    constructor <;> simp [CCU.V2.Client.Purge, CCU.V2.doRequest, h401, h]
  · intro hin
    have h := (V2.assertError_eq_none_v2 s.response).mpr hin
    simp [CCU.V2.Client.GetPurgeStatus, CCU.V2.doRequest, h401, h]
  · intro hout
    have h := V2.assertError_eq_some_v2 s.response hout
    simp [CCU.V2.Client.GetPurgeStatus, CCU.V2.doRequest, h401, h]
  · intro hin
    have h := (V3.assertError_eq_none_v3 w.response).mpr hin
    constructor <;> simp [CCU.V3.Client.Purge, CCU.V3.doRequest, h]
  · intro hout
    have h := V3.assertError_eq_some_v3 w.response hout
    constructor <;> simp [CCU.V3.Client.Purge, CCU.V3.doRequest, h]

open CCU in
/-- Witness for C1 at concrete boundary inputs: embedded status 200 succeeds
for v2 GetQueueLength, embedded status 199 errors with the decoded response
for v2 GetPurgeStatus, and embedded status 300 errors with the decoded
response for v3 Purge. -/
theorem c1_status_code_classification_witness :
    V2.Client.GetQueueLength
        (.ok { statusCode := 200, body := .ok (V2.mkQueueLength 200) }) =
      (some (V2.mkQueueLength 200), none) ∧
    V2.Client.GetPurgeStatus
        (.ok { statusCode := 200,
               body := .ok (V2.mkPurgeStatus 199 "Done") }) =
      (none, some (.api (V2.mkResponse 199 "" ""))) ∧
    (V3.Client.Purge (V3.mkPurgeRequest "" "" "")
        (.ok { statusCode := 200, body := .ok (V3.mkPurgeResponse 300) })).err =
      some (.api (V3.mkResponse 300 "" "")) := by
  refine ⟨?_, ?_, ?_⟩
  · exact (c1_status_code_classification 200 0 (by decide)
      (V2.mkQueueLength 200) (V2.mkPurgeResponse 200 0)
      (V2.mkPurgeStatus 199 "Done") (V3.mkPurgeResponse 300)
      (V2.mkPurgeRequest "" "" "") (V3.mkPurgeRequest "" "" "")).1
      (by constructor <;> decide)
  · exact (c1_status_code_classification 200 0 (by decide)
      (V2.mkQueueLength 200) (V2.mkPurgeResponse 200 0)
      (V2.mkPurgeStatus 199 "Done") (V3.mkPurgeResponse 300)
      (V2.mkPurgeRequest "" "" "") (V3.mkPurgeRequest "" "" "")).2.2.2.2.2.1
      (by intro h; exact absurd h.1 (by decide))
  · exact ((c1_status_code_classification 200 0 (by decide)
      (V2.mkQueueLength 200) (V2.mkPurgeResponse 200 0)
      (V2.mkPurgeStatus 199 "Done") (V3.mkPurgeResponse 300)
      (V2.mkPurgeRequest "" "" "") (V3.mkPurgeRequest "" "" "")).2.2.2.2.2.2.2
      (by intro h; exact absurd h.2 (by decide))).2

open CCU in
/-- Claim C10: at the public interface of all four operations, the success
value and the error are mutually exclusive: a non-nil error comes with a nil
response, and a non-nil response comes with a nil error. -/
theorem c10_success_error_mutually_exclusive
    (rq : CCU.HTTPResult V2.QueueLengthResponse)
    (rp : CCU.HTTPResult V2.PurgeResponse)
    (rs : CCU.HTTPResult V2.PurgeStatusResponse)
    (rw : CCU.HTTPResult V3.PurgeResponse)
    (req2 : V2.PurgeRequest) (req3 : V3.PurgeRequest) (now : Int) :
    ((V2.Client.GetQueueLength rq).2 ≠ none →
      (V2.Client.GetQueueLength rq).1 = none) ∧
    ((V2.Client.GetQueueLength rq).1 ≠ none →
      (V2.Client.GetQueueLength rq).2 = none) ∧
    ((V2.Client.Purge req2 rp now).err ≠ none →
      (V2.Client.Purge req2 rp now).resp = none) ∧
    ((V2.Client.Purge req2 rp now).resp ≠ none →
      (V2.Client.Purge req2 rp now).err = none) ∧
    ((V2.Client.GetPurgeStatus rs).2 ≠ none →
      (V2.Client.GetPurgeStatus rs).1 = none) ∧
    ((V2.Client.GetPurgeStatus rs).1 ≠ none →
      (V2.Client.GetPurgeStatus rs).2 = none) ∧
    ((V3.Client.Purge req3 rw).err ≠ none →
      (V3.Client.Purge req3 rw).resp = none) ∧
    ((V3.Client.Purge req3 rw).resp ≠ none →
      (V3.Client.Purge req3 rw).err = none) := by
  refine ⟨?_, ?_, ?_, ?_, ?_, ?_, ?_, ?_⟩
  · intro h
    rcases V2.GetQueueLength_cases rq with ⟨v, hv⟩ | ⟨e, he⟩
    · rw [hv] at h; simp at h
    · rw [he]
  · intro h
    rcases V2.GetQueueLength_cases rq with ⟨v, hv⟩ | ⟨e, he⟩
    · rw [hv]
    · rw [he] at h; simp at h
  · intro h
    rcases V2.Purge_cases_v2 req2 rp now with ⟨he, v, hv⟩ | ⟨hr, e, he⟩
    · exact absurd he h
    · exact hr
  · intro h
    rcases V2.Purge_cases_v2 req2 rp now with ⟨he, v, hv⟩ | ⟨hr, e, he⟩
    · exact he
    · exact absurd hr h
  · intro h
    rcases V2.GetPurgeStatus_cases rs with ⟨v, hv⟩ | ⟨e, he⟩
    · rw [hv] at h; simp at h
    · rw [he]
  · intro h
    rcases V2.GetPurgeStatus_cases rs with ⟨v, hv⟩ | ⟨e, he⟩
    · rw [hv]
    · rw [he] at h; simp at h
  · intro h
    rcases V3.Purge_cases_v3 req3 rw with ⟨he, v, hv⟩ | ⟨hr, e, he⟩
    · exact absurd he h
    · exact hr
  · intro h
    rcases V3.Purge_cases_v3 req3 rw with ⟨he, v, hv⟩ | ⟨hr, e, he⟩
    · exact he
    · exact absurd hr h

open CCU in
/-- Witness for C10 at concrete inputs: a transport failure yields a nil
response in all four operations, and a success yields a nil error. -/
theorem c10_success_error_mutually_exclusive_witness :
    (V2.Client.GetQueueLength (.error "net")).1 = none ∧
    (V2.Client.Purge (V2.mkPurgeRequest "" "" "") (.error "net") 0).resp =
      none ∧
    (V2.Client.GetPurgeStatus (.error "net")).1 = none ∧
    (V3.Client.Purge (V3.mkPurgeRequest "" "" "") (.error "net")).resp =
      none := by
  refine ⟨?_, ?_, ?_, ?_⟩
  · exact (c10_success_error_mutually_exclusive (.error "net") (.error "net")
      (.error "net") (.error "net") (V2.mkPurgeRequest "" "" "")
      (V3.mkPurgeRequest "" "" "") 0).1 (by decide)
  · exact (c10_success_error_mutually_exclusive (.error "net") (.error "net")
      (.error "net") (.error "net") (V2.mkPurgeRequest "" "" "")
      (V3.mkPurgeRequest "" "" "") 0).2.2.1 (by decide)
  · exact (c10_success_error_mutually_exclusive (.error "net") (.error "net")
      (.error "net") (.error "net") (V2.mkPurgeRequest "" "" "")
      (V3.mkPurgeRequest "" "" "") 0).2.2.2.2.1 (by decide)
  · exact (c10_success_error_mutually_exclusive (.error "net") (.error "net")
      (.error "net") (.error "net") (V2.mkPurgeRequest "" "" "")
      (V3.mkPurgeRequest "" "" "") 0).2.2.2.2.2.2.1 (by decide)

open CCU in
/-- Counterexample to C2: a v2 request constructed directly with unset
classification fields is sent by the Purge operation with those fields still
unset — the v2 submission step applies no defaults. -/
theorem c2_counterexample_no_defaults_at_submission :
    (V2.Client.Purge (V2.mkPurgeRequest "" "" "")
      (.error "net") 0).sent.type = "" ∧
    (V2.Client.Purge (V2.mkPurgeRequest "" "" "")
      (.error "net") 0).sent.action = "" ∧
    (V2.Client.Purge (V2.mkPurgeRequest "" "" "")
      (.error "net") 0).sent.domain = "" ∧
    ("" : String) ≠ "arl" := by
  refine ⟨?_, ?_, ?_, by decide⟩ <;> rfl

open CCU in
/-- Amended C2: the v2 defaults type=arl, action=remove, domain=production
are applied exactly once, by the NewPurgeRequest constructor at construction
time; the v2 Purge operation applies no defaults and sends the
classification fields exactly as given, so fields already set are never
overwritten. -/
theorem c2_v2_defaults_applied_at_construction (objects : List String)
    (req : V2.PurgeRequest) (reply : CCU.HTTPResult V2.PurgeResponse)
    (now : Int) :
    (V2.NewPurgeRequest objects).type = "arl" ∧
    (V2.NewPurgeRequest objects).action = "remove" ∧
    (V2.NewPurgeRequest objects).domain = "production" ∧
    (V2.NewPurgeRequest objects).objects = objects ∧
    (V2.Client.Purge req reply now).sent = req :=
  ⟨rfl, rfl, rfl, rfl, V2.Purge_sent req reply now⟩

open CCU in
/-- Counterexample to C3: the v3 Purge operation mutates the caller-supplied
request — after a call with an unset action field, the caller's request
carries the default action. -/
theorem c3_counterexample_v3_purge_mutates_request :
    (V3.Client.Purge (V3.mkPurgeRequest "cpcode" "" "")
      (.error "net")).reqAfter ≠ V3.mkPurgeRequest "cpcode" "" "" := by
  rw [V3.Purge_reqAfter_v3]
  decide

open CCU in
/-- Amended C3: v2 Purge leaves the caller-supplied request unchanged; v3
Purge writes the per-version defaults into whichever classification fields
are unset, mutating the caller's request, while set classification fields
and the hostname and objects fields are never modified — so a v3 request
with all three classification fields set is also left unchanged. -/
theorem c3_purge_request_frame (req2 : V2.PurgeRequest)
    (reply2 : CCU.HTTPResult V2.PurgeResponse) (now : Int)
    (req3 : V3.PurgeRequest) (reply3 : CCU.HTTPResult V3.PurgeResponse) :
    (V2.Client.Purge req2 reply2 now).reqAfter = req2 ∧
    (V3.Client.Purge req3 reply3).reqAfter.hostname = req3.hostname ∧
    (V3.Client.Purge req3 reply3).reqAfter.objects = req3.objects ∧
    (V3.Client.Purge req3 reply3).reqAfter.action =
      (if req3.action = "" then "invalidate" else req3.action) ∧
    (V3.Client.Purge req3 reply3).reqAfter.network =
      (if req3.network = "" then "production" else req3.network) ∧
    (V3.Client.Purge req3 reply3).reqAfter.type =
      (if req3.type = "" then "url" else req3.type) ∧
    (req3.action ≠ "" → req3.network ≠ "" → req3.type ≠ "" →
      (V3.Client.Purge req3 reply3).reqAfter = req3) := by
  obtain ⟨ha, hn, ht, hh, ho⟩ := V3.applyDefaults_fields req3
  rw [V3.Purge_reqAfter_v3]
  refine ⟨V2.Purge_reqAfter_v2 req2 reply2 now, hh, ho, ha, hn, ht, ?_⟩
  intro h1 h2 h3
  unfold CCU.V3.applyDefaults
  simp [h1, h2, h3]

open CCU in
/-- Witness for the amended C3: a v3 request with all classification fields
set is left unchanged by Purge. -/
theorem c3_purge_request_frame_witness :
    (V3.Client.Purge (V3.mkPurgeRequest "tag" "delete" "staging")
      (.error "net")).reqAfter = V3.mkPurgeRequest "tag" "delete" "staging" :=
  (c3_purge_request_frame (V2.mkPurgeRequest "" "" "") (.error "net") 0
    (V3.mkPurgeRequest "tag" "delete" "staging") (.error "net")).2.2.2.2.2.2
    (by decide) (by decide) (by decide)

open CCU in
/-- Witness for C6: a 401 reply with a malformed body yields the
unauthorized error, not a decode error. -/
theorem c6_v2_unauthorized_short_circuit_witness :
    V2.Client.GetQueueLength
        (.ok { statusCode := 401, body := .error "bad json" }) =
      (none, some .unauthorized) ∧
    V2.Err.unauthorized ≠ V2.Err.decode "bad json" :=
  ⟨(c6_v2_unauthorized_short_circuit (.error "bad json") (.error "bad json")
      (.error "bad json") (V2.mkPurgeRequest "" "" "") 0 "bad json").1,
   (c6_v2_unauthorized_short_circuit (.error "bad json") (.error "bad json")
      (.error "bad json") (V2.mkPurgeRequest "" "" "") 0
      "bad json").2.2.2.2⟩

open CCU in
/-- Witness for the amended C2 at concrete inputs. -/
theorem c2_v2_defaults_applied_at_construction_witness :
    (V2.NewPurgeRequest ["/a"]).type = "arl" ∧
    (V2.Client.Purge (V2.mkPurgeRequest "x" "y" "z")
      (.error "net") 0).sent = V2.mkPurgeRequest "x" "y" "z" :=
  ⟨(c2_v2_defaults_applied_at_construction ["/a"]
      (V2.mkPurgeRequest "x" "y" "z") (.error "net") 0).1,
   (c2_v2_defaults_applied_at_construction ["/a"]
      (V2.mkPurgeRequest "x" "y" "z") (.error "net") 0).2.2.2.2⟩
